import Mathlib

/-!
Verification development for the poisoning protection pipeline
(src/modal/poisoning/main.py).  Python floats are embedded as exact
rationals; tensors and images are embedded componentwise as functions
from pixel indices to rationals.
-/

/-- torch.clamp x lo hi, componentwise (also np.clip). -/
def clampQ (lo hi x : ℚ) : ℚ := min (max x lo) hi

/-- Boolean lookup mirroring config.get(key, default): the stored value when
the key is present, the default otherwise. -/
def getFlag (o : Option Bool) (d : Bool) : Bool := o.getD d

/-- The recognized keys of ProtectionRequest.config (main.py lines 28-41).
A field is none when the key is absent from the mapping. -/
structure PoisonConfig where
  intensity : Option String := none
  epsilon : Option ℚ := none
  steps : Option ℕ := none
  apply_poison : Option Bool := none
  apply_concept_poison : Option Bool := none
  apply_watermark : Option Bool := none
  apply_visual_watermark : Option Bool := none
  apply_verification : Option Bool := none
  secret_key : Option String := none
  alpha : Option ℚ := none
  max_res : Option ℕ := none
deriving DecidableEq

/-- The default config literal of ProtectionRequest (main.py lines 28-41):
every key below is present in the default mapping.
0.04 = 1/25, 0.012 = 3/250. -/
def defaultConfig : PoisonConfig :=
  { intensity := some "Medium"
    epsilon := some (1/25)
    steps := some 100
    apply_poison := some true
    apply_concept_poison := some false
    apply_watermark := some true
    apply_visual_watermark := some false
    secret_key := none
    alpha := some (3/250)
    max_res := some 3840 }

/-- The PGD hyperparameters resolved in apply_poison (main.py lines 416-444). -/
structure PoisonSettings where
  epsilon : ℚ
  alpha_step : ℚ
  steps : ℕ
  w_lpips : ℚ
  w_repel : ℚ
  w_attract : ℚ
deriving DecidableEq

/-- The intensity preset table (main.py lines 419-440): an if chain on the
intensity string whose final else branch is the Medium row. -/
def presetSettings (intensity : String) : PoisonSettings :=
  if intensity = "High" then
    { epsilon := 80/255, alpha_step := 4/255, steps := 600,
      w_lpips := 0, w_repel := 15, w_attract := 10 }
  else if intensity = "Low" then
    { epsilon := 6/255, alpha_step := 1/255, steps := 50,
      w_lpips := 5, w_repel := 1, w_attract := 1 }
  else
    { epsilon := 32/255, alpha_step := 2/255, steps := 200,
      w_lpips := 1/100, w_repel := 2, w_attract := 2 }

/-- Settings resolution in apply_poison (main.py lines 417-444): the preset is
chosen from config.get("intensity", "Medium"), then the epsilon and steps
fields are overridden when those keys are present in the config. -/
def resolveSettings (cfg : PoisonConfig) : PoisonSettings :=
  let preset := presetSettings (cfg.intensity.getD "Medium")
  { preset with
    epsilon := cfg.epsilon.getD preset.epsilon
    steps := cfg.steps.getD preset.steps }

/-- Claim C5: apply_poison resolves the intensity preset first (Low, Medium,
High rows as in the table, any other intensity value falling back to Medium),
and only afterwards the epsilon and steps keys of the config, when present,
override the corresponding preset fields; the remaining four fields always
come from the preset. -/
theorem intensity_presets_then_overrides :
    (∀ cfg : PoisonConfig, cfg.epsilon = none → cfg.steps = none →
        resolveSettings cfg = presetSettings (cfg.intensity.getD "Medium"))
  ∧ presetSettings "Low" =
      { epsilon := 6/255, alpha_step := 1/255, steps := 50,
        w_lpips := 5, w_repel := 1, w_attract := 1 }
  ∧ presetSettings "Medium" =
      { epsilon := 32/255, alpha_step := 2/255, steps := 200,
        w_lpips := 1/100, w_repel := 2, w_attract := 2 }
  ∧ presetSettings "High" =
      { epsilon := 80/255, alpha_step := 4/255, steps := 600,
        w_lpips := 0, w_repel := 15, w_attract := 10 }
  ∧ (∀ s : String, s ≠ "High" → s ≠ "Low" →
        presetSettings s = presetSettings "Medium")
  ∧ (∀ (cfg : PoisonConfig) (e : ℚ), cfg.epsilon = some e →
        (resolveSettings cfg).epsilon = e)
  ∧ (∀ (cfg : PoisonConfig) (n : ℕ), cfg.steps = some n →
        (resolveSettings cfg).steps = n)
  ∧ (∀ cfg : PoisonConfig,
        (resolveSettings cfg).alpha_step
          = (presetSettings (cfg.intensity.getD "Medium")).alpha_step
      ∧ (resolveSettings cfg).w_lpips
          = (presetSettings (cfg.intensity.getD "Medium")).w_lpips
      ∧ (resolveSettings cfg).w_repel
          = (presetSettings (cfg.intensity.getD "Medium")).w_repel
      ∧ (resolveSettings cfg).w_attract
          = (presetSettings (cfg.intensity.getD "Medium")).w_attract) := by
  refine ⟨?_, rfl, rfl, rfl, ?_, ?_, ?_, ?_⟩
  · intro cfg he hs
    simp [resolveSettings, he, hs]
  · intro s hH hL
    simp [presetSettings, hH, hL]
  · intro cfg e he
    simp [resolveSettings, he]
  · intro cfg n hs
    simp [resolveSettings, hs]
  · intro cfg
    refine ⟨rfl, rfl, rfl, rfl⟩

/-- Witness for claim C5 at concrete configs: intensity Low with no override
keys resolves to the Low preset row, and a config carrying an epsilon key
has that value after resolution. -/
theorem intensity_presets_then_overrides_w :
    resolveSettings { intensity := some "Low" }
      = presetSettings (Option.getD (some "Low") "Medium")
  ∧ (resolveSettings defaultConfig).epsilon = 1/25 :=
  ⟨intensity_presets_then_overrides.1 { intensity := some "Low" } rfl rfl,
   intensity_presets_then_overrides.2.2.2.2.2.1 defaultConfig (1/25) rfl⟩

/-- Claim C10: the default config mapping already carries epsilon = 0.04 and
steps = 100, and since present keys override the preset, every request using
the default mapping runs with epsilon 1/25 and steps 100 regardless of the
intensity value; the preset epsilon and steps only take effect for configs
that omit those keys. -/
theorem default_config_pins_epsilon_steps :
    defaultConfig.epsilon = some (1/25)
  ∧ defaultConfig.steps = some 100
  ∧ (∀ s : Option String,
        (resolveSettings { defaultConfig with intensity := s }).epsilon = 1/25
      ∧ (resolveSettings { defaultConfig with intensity := s }).steps = 100)
  ∧ (∀ cfg : PoisonConfig, cfg.epsilon = none → cfg.steps = none →
        (resolveSettings cfg).epsilon
          = (presetSettings (cfg.intensity.getD "Medium")).epsilon
      ∧ (resolveSettings cfg).steps
          = (presetSettings (cfg.intensity.getD "Medium")).steps) := by
  refine ⟨rfl, rfl, ?_, ?_⟩
  · intro s
    exact ⟨rfl, rfl⟩
  · intro cfg he hs
    constructor
    · simp [resolveSettings, he]
    · simp [resolveSettings, hs]

/-- Witness for claim C10: with the default config, the High intensity still
runs at epsilon 1/25 and 100 steps; a config without epsilon and steps keys
falls back to its preset values. -/
theorem default_config_pins_epsilon_steps_w :
    ((resolveSettings { defaultConfig with intensity := some "High" }).epsilon = 1/25
      ∧ (resolveSettings { defaultConfig with intensity := some "High" }).steps = 100)
  ∧ ((resolveSettings { intensity := some "High" }).epsilon
        = (presetSettings (Option.getD (some "High") "Medium")).epsilon
      ∧ (resolveSettings { intensity := some "High" }).steps
        = (presetSettings (Option.getD (some "High") "Medium")).steps) :=
  ⟨default_config_pins_epsilon_steps.2.2.1 (some "High"),
   default_config_pins_epsilon_steps.2.2.2 { intensity := some "High" } rfl rfl⟩

/-- The perturbed image of one PGD step (main.py lines 456-457):
adv_img = torch.clamp(base_work + delta, 0, 1), componentwise over the
flattened work tensor. -/
def advImage (base delta : ℕ → ℚ) : ℕ → ℚ :=
  fun p => clampQ 0 1 (base p + delta p)

/-- The composite loss of one PGD iteration (main.py lines 459-502).
The frozen encoders enter only through the cosine similarities of the
perturbed image: cosClipSelf and cosSiglipSelf are the similarities to the
original-image embeddings, cosClipTxt and cosSiglipTxt to the averaged decoy
text embeddings, and lpipsD is the LPIPS distance; all are abstract
functionals of the image, exactly as the loss uses them.  Mirrors:
loss_clip_attract = 1 - cos, loss_clip_repel = cos, loss_perc =
lpips(adv*2-1, base*2-1), loss_concept and loss_pixel guarded by the config
flags, total = 1.0*loss_pixel + 10.0*loss_concept + w_lpips*loss_perc. -/
def totalLossModel (cfg : PoisonConfig) (w_repel w_attract w_lpips : ℚ)
    (cosClipSelf cosSiglipSelf cosClipTxt cosSiglipTxt : (ℕ → ℚ) → ℚ)
    (lpipsD : (ℕ → ℚ) → (ℕ → ℚ) → ℚ) (base delta : ℕ → ℚ) : ℚ :=
  (1 : ℚ) *
    (if getFlag cfg.apply_poison true then
      cosClipSelf (advImage base delta) * w_repel
        + cosSiglipSelf (advImage base delta) * w_repel
    else 0)
  + (10 : ℚ) *
    (if getFlag cfg.apply_concept_poison false then
      (1 - cosClipTxt (advImage base delta)) * w_attract
        + (1 - cosSiglipTxt (advImage base delta)) * w_attract
    else 0)
  + w_lpips *
      lpipsD (fun p => advImage base delta p * 2 - 1) (fun p => base p * 2 - 1)

/-- Claim C1: at every PGD iteration the composite loss equals
L_pixel + 10 * L_concept + w_lpips * L_perc, with
L_pixel = w_repel * (cos_clip_self + cos_siglip_self) when apply_poison
(else 0), L_concept = w_attract * ((1 - cos_clip_txt) + (1 - cos_siglip_txt))
when apply_concept_poison (else 0), and L_perc the LPIPS distance between
2*adv-1 and 2*base_work-1 where adv = clamp(base_work + delta, 0, 1). -/
theorem total_loss_composition (cfg : PoisonConfig) (w_repel w_attract w_lpips : ℚ)
    (cosClipSelf cosSiglipSelf cosClipTxt cosSiglipTxt : (ℕ → ℚ) → ℚ)
    (lpipsD : (ℕ → ℚ) → (ℕ → ℚ) → ℚ) (base delta : ℕ → ℚ) :
    totalLossModel cfg w_repel w_attract w_lpips
        cosClipSelf cosSiglipSelf cosClipTxt cosSiglipTxt lpipsD base delta
      = (if getFlag cfg.apply_poison true then
          w_repel * (cosClipSelf (advImage base delta)
            + cosSiglipSelf (advImage base delta))
        else 0)
        + 10 * (if getFlag cfg.apply_concept_poison false then
          w_attract * ((1 - cosClipTxt (advImage base delta))
            + (1 - cosSiglipTxt (advImage base delta)))
        else 0)
        + w_lpips * lpipsD (fun p => 2 * advImage base delta p - 1)
            (fun p => 2 * base p - 1)
      ∧ advImage base delta = fun p => clampQ 0 1 (base p + delta p) := by
  constructor
  · have h1 : (fun p => advImage base delta p * 2 - 1)
        = (fun p => 2 * advImage base delta p - 1) := by
      funext p; ring
    have h2 : (fun p => base p * 2 - 1) = (fun p => 2 * base p - 1) := by
      funext p; ring
    unfold totalLossModel
    rw [h1, h2]
    split_ifs <;> ring
  · rfl

/-- The sign function used by the PGD update (grad.sign() in main.py
line 513). -/
def qsign (x : ℚ) : ℚ := if 0 < x then 1 else if x < 0 then -1 else 0

/-- The projection applied after the gradient update (main.py lines 517-521):
first torch.clamp(delta, -epsilon, epsilon), then
torch.max(torch.min(delta, 1 - base_work), -base_work), componentwise. -/
def projectDelta (eps b d : ℚ) : ℚ :=
  max (min (clampQ (-eps) eps d) (1 - b)) (-b)

/-- One full PGD iteration on the perturbation (main.py lines 512-521):
delta := delta - alpha_step * sign(grad), then the two projections. -/
def pgdStep (eps alpha_step : ℚ) (base delta g : ℕ → ℚ) : ℕ → ℚ :=
  fun p => projectDelta eps (base p) (delta p - alpha_step * qsign (g p))

/-- The PGD loop of apply_poison with its source control flow (main.py lines
449-531): the whole for loop sits inside one try block, so the first step
whose loss evaluation raises aborts all remaining iterations; the except arm
logs and falls through.  sched i = some g means the backward pass of step i
produced the gradient tensor g; sched i = none means it raised.  Arguments:
start index, remaining iterations, current delta.  Returns the final delta
and the number of completed iterations. -/
def runCodeAux (eps alpha_step : ℚ) (base : ℕ → ℚ)
    (sched : ℕ → Option (ℕ → ℚ)) : ℕ → ℕ → (ℕ → ℚ) → (ℕ → ℚ) × ℕ
  | _, 0, delta => (delta, 0)
  | i, n + 1, delta =>
    match sched i with
    | none => (delta, 0)
    | some g =>
      let r := runCodeAux eps alpha_step base sched (i + 1) n
        (pgdStep eps alpha_step base delta g)
      (r.1, r.2 + 1)

/-- The loop as run by apply_poison: delta initialized to zeros (main.py
line 369), iterations 0 .. steps-1. -/
def runLoopCode (eps alpha_step : ℚ) (base : ℕ → ℚ)
    (sched : ℕ → Option (ℕ → ℚ)) (steps : ℕ) : (ℕ → ℚ) × ℕ :=
  runCodeAux eps alpha_step base sched 0 steps (fun _ => 0)

/-- Bounds guaranteed by a single projection: result within the epsilon ball
and base plus result within the valid pixel range. -/
theorem projectDelta_bounds (eps b d : ℚ) (heps : 0 ≤ eps) (hb0 : 0 ≤ b)
    (hb1 : b ≤ 1) :
    |projectDelta eps b d| ≤ eps
      ∧ 0 ≤ b + projectDelta eps b d ∧ b + projectDelta eps b d ≤ 1 := by
  have hm1 : clampQ (-eps) eps d ≤ eps := min_le_right _ _
  have hm2 : -eps ≤ clampQ (-eps) eps d := by
    refine le_min (le_max_right _ _) (by linarith)
  have hp1 : projectDelta eps b d ≤ eps := by
    refine max_le (le_trans (min_le_left _ _) hm1) (by linarith)
  have hp2 : -eps ≤ projectDelta eps b d := by
    refine le_trans (le_min hm2 (by linarith)) (le_max_left _ _)
  have hp3 : -b ≤ projectDelta eps b d := le_max_right _ _
  have hp4 : projectDelta eps b d ≤ 1 - b := by
    refine max_le (min_le_right _ _) (by linarith)
  refine ⟨abs_le.mpr ⟨hp2, hp1⟩, by linarith, by linarith⟩

/-- Claim C2: with a non-negative epsilon and a base image in the valid
range, the perturbation observed after any number of loop iterations (hence
after the projection that closes every iteration, and for every failure
schedule) stays within the epsilon ball componentwise and keeps
base + delta inside the valid pixel range; the zero initialization satisfies
the same invariant before the first iteration. -/
theorem pgd_delta_invariant (eps alpha_step : ℚ) (base : ℕ → ℚ)
    (sched : ℕ → Option (ℕ → ℚ)) (heps : 0 ≤ eps)
    (hb : ∀ p, 0 ≤ base p ∧ base p ≤ 1) :
    (∀ steps p,
        |(runLoopCode eps alpha_step base sched steps).1 p| ≤ eps
      ∧ 0 ≤ base p + (runLoopCode eps alpha_step base sched steps).1 p
      ∧ base p + (runLoopCode eps alpha_step base sched steps).1 p ≤ 1)
    ∧ (∀ p, |(0 : ℚ)| ≤ eps ∧ 0 ≤ base p + 0 ∧ base p + 0 ≤ 1) := by
  have main : ∀ (n i : ℕ) (delta : ℕ → ℚ),
      (∀ p, |delta p| ≤ eps ∧ 0 ≤ base p + delta p ∧ base p + delta p ≤ 1) →
      ∀ p, |(runCodeAux eps alpha_step base sched i n delta).1 p| ≤ eps
        ∧ 0 ≤ base p + (runCodeAux eps alpha_step base sched i n delta).1 p
        ∧ base p + (runCodeAux eps alpha_step base sched i n delta).1 p ≤ 1 := by
    intro n
    induction n with
    | zero => intro i delta hd p; simpa [runCodeAux] using hd p
    | succ n ih =>
      intro i delta hd p
      simp only [runCodeAux]
      cases hs : sched i with
      | none => simpa using hd p
      | some g =>
        simp only
        exact ih (i + 1) (pgdStep eps alpha_step base delta g)
          (fun q => by
            have := projectDelta_bounds eps (base q)
              (delta q - alpha_step * qsign (g q)) heps (hb q).1 (hb q).2
            simpa [pgdStep] using this) p
  refine ⟨fun steps p => main steps 0 (fun _ => 0) ?_ p, fun p => ?_⟩
  · intro q
    refine ⟨by simpa using heps, by simpa using (hb q).1, by simpa using (hb q).2⟩
  · refine ⟨by simpa using heps, by simpa using (hb p).1, by simpa using (hb p).2⟩

/-- Witness for claim C2 at a concrete run: epsilon 6/255, constant base 1/2,
gradients all ones, two iterations. -/
theorem pgd_delta_invariant_w :
    |(runLoopCode (6/255) (1/255) (fun _ => 1/2)
        (fun _ => some (fun _ => 1)) 2).1 0| ≤ 6/255
  ∧ 0 ≤ (1/2 : ℚ) + (runLoopCode (6/255) (1/255) (fun _ => 1/2)
        (fun _ => some (fun _ => 1)) 2).1 0
  ∧ (1/2 : ℚ) + (runLoopCode (6/255) (1/255) (fun _ => 1/2)
        (fun _ => some (fun _ => 1)) 2).1 0 ≤ 1 :=
  (pgd_delta_invariant (6/255) (1/255) (fun _ => 1/2)
    (fun _ => some (fun _ => 1)) (by norm_num)
    (fun _ => by norm_num)).1 2 0

/-- Modelled from the spec: the per-step recovery loop the specification
describes ("If the loss evaluation itself fails at step i, log and continue
to the next step; delta retains its last valid state").  A failed step leaves
delta untouched and the loop moves on to step i+1. -/
def runSpecAux (eps alpha_step : ℚ) (base : ℕ → ℚ)
    (sched : ℕ → Option (ℕ → ℚ)) : ℕ → ℕ → (ℕ → ℚ) → (ℕ → ℚ)
  | _, 0, delta => delta
  | i, n + 1, delta =>
    match sched i with
    | none => runSpecAux eps alpha_step base sched (i + 1) n delta
    | some g => runSpecAux eps alpha_step base sched (i + 1) n
        (pgdStep eps alpha_step base delta g)

/-- Modelled from the spec: running the per-step recovery loop from the zero
perturbation over iterations 0 .. steps-1. -/
def runLoopSpecContinue (eps alpha_step : ℚ) (base : ℕ → ℚ)
    (sched : ℕ → Option (ℕ → ℚ)) (steps : ℕ) : ℕ → ℚ :=
  runSpecAux eps alpha_step base sched 0 steps (fun _ => 0)

/-- A clean prefix of the loop completes exactly its length. -/
theorem runCodeAux_clean_count (eps alpha_step : ℚ) (base : ℕ → ℚ)
    (sched : ℕ → Option (ℕ → ℚ)) :
    ∀ (m i : ℕ) (delta : ℕ → ℚ),
      (∀ j, j < m → (sched (i + j)).isSome = true) →
      (runCodeAux eps alpha_step base sched i m delta).2 = m := by
  intro m
  induction m with
  | zero => intro i delta _; rfl
  | succ m ih =>
    intro i delta hok
    have h0 : (sched i).isSome = true := by simpa using hok 0 (Nat.succ_pos m)
    cases hs : sched i with
    | none => rw [hs] at h0; simp at h0
    | some g =>
      simp only [runCodeAux, hs]
      have := ih (i + 1) (pgdStep eps alpha_step base delta g)
        (fun j hj => by
          have := hok (j + 1) (Nat.succ_lt_succ hj)
          simpa [Nat.add_assoc, Nat.add_comm 1 j] using this)
      simpa using this

/-- A failure at relative index m inside a longer loop truncates the run to
its first m iterations. -/
theorem runCodeAux_abort (eps alpha_step : ℚ) (base : ℕ → ℚ)
    (sched : ℕ → Option (ℕ → ℚ)) :
    ∀ (m n i : ℕ) (delta : ℕ → ℚ), m < n → sched (i + m) = none →
      (∀ j, j < m → (sched (i + j)).isSome = true) →
      runCodeAux eps alpha_step base sched i n delta
        = runCodeAux eps alpha_step base sched i m delta := by
  intro m
  induction m with
  | zero =>
    intro n i delta hmn hfail _
    obtain ⟨n, rfl⟩ := Nat.exists_eq_succ_of_ne_zero (Nat.pos_iff_ne_zero.mp hmn)
    simp only [runCodeAux]
    rw [show i + 0 = i from rfl] at hfail
    rw [hfail]
  | succ m ih =>
    intro n i delta hmn hfail hok
    obtain ⟨n, rfl⟩ := Nat.exists_eq_succ_of_ne_zero
      (Nat.pos_iff_ne_zero.mp (Nat.lt_of_le_of_lt (Nat.zero_le _) hmn))
    have h0 : (sched i).isSome = true := by simpa using hok 0 (Nat.succ_pos m)
    cases hs : sched i with
    | none => rw [hs] at h0; simp at h0
    | some g =>
      simp only [runCodeAux, hs]
      have hrec := ih n (i + 1) (pgdStep eps alpha_step base delta g)
        (Nat.lt_of_succ_lt_succ hmn)
        (by simpa [Nat.add_assoc, Nat.add_comm 1 m] using hfail)
        (fun j hj => by
          have := hok (j + 1) (Nat.succ_lt_succ hj)
          simpa [Nat.add_assoc, Nat.add_comm 1 j] using this)
      rw [hrec]

/-- Which failure schedule is used by the concrete counterexample run: the
loss evaluation raises at step 0 and would produce an all-ones gradient at
every later step. -/
def cexSched : ℕ → Option (ℕ → ℚ) :=
  fun j => if j = 0 then none else some (fun _ => 1)

/-- Counterexample for claim C3: with two configured steps and a failure at
step 0, the loop as written (try/except wrapping the whole for loop) leaves
delta at zero, while the per-step recovery the claim describes would still
execute step 1 and move delta to -2/255; the two disagree, so a single step
failure does terminate the optimization. -/
theorem step_failure_recovery_claim_false :
    (runLoopCode (32/255) (2/255) (fun _ => 1/2) cexSched 2).1 0 = 0
  ∧ runLoopSpecContinue (32/255) (2/255) (fun _ => 1/2) cexSched 2 0 = -(2/255)
  ∧ ((0 : ℚ) ≠ -(2/255)) := by
  refine ⟨rfl, ?_, by norm_num⟩
  show projectDelta (32/255) (1/2) (0 - 2/255 * qsign 1) = -(2/255)
  rw [show qsign 1 = 1 from rfl]
  unfold projectDelta clampQ
  norm_num

/-- Turns an engine result into a Boolean success tag. -/
def exceptOk {e a : Type} : Except e a → Bool
  | Except.ok _ => true
  | Except.error _ => false

/-- The failure apply_poison hits when the PGD loop never ran: the metrics
dictionary reads the loop variable i (main.py line 548), which Python only
binds when range(steps) is non-empty, so steps = 0 raises NameError. -/
inductive EngineFailure where
  | nameErrorStepsVar
deriving DecidableEq

/-- Bicubic upscaling of the perturbation (main.py line 536) embedded as the
fixed linear combination F.interpolate applies: for each full-resolution
pixel, a list of (weight, source pixel) taps. -/
def applyKernel (K : ℕ → List (ℚ × ℕ)) (src : ℕ → ℚ) : ℕ → ℚ :=
  fun p => ((K p).map (fun t => t.1 * src t.2)).sum

/-- The result of apply_poison after the loop (main.py lines 535-552): the
perturbation is upscaled and added to the full-resolution base under a final
clamp, and the metrics record the last loop index.  When steps = 0 the for
loop never binds i and building the metrics dictionary raises NameError,
which the outer handler re-raises.  On a run aborted by a failure at step k
the last bound index is k, so the recorded index is min (steps - 1) with the
completed count. -/
def applyPoisonModel (eps alpha_step : ℚ) (steps : ℕ)
    (baseWork baseFull : ℕ → ℚ) (sched : ℕ → Option (ℕ → ℚ))
    (K : ℕ → List (ℚ × ℕ)) : Except EngineFailure ((ℕ → ℚ) × ℕ) :=
  let r := runLoopCode eps alpha_step baseWork sched steps
  match steps with
  | 0 => Except.error EngineFailure.nameErrorStepsVar
  | n + 1 =>
    Except.ok (fun p => clampQ 0 1 (baseFull p + applyKernel K r.1 p),
      min n r.2)

/-- Claim C3 (amended): a loss-evaluation failure at step i is caught by the
handler wrapping the whole loop, so the run truncates to its first i
iterations (the remaining steps are abandoned, delta retaining the value of
the last successful iteration), and the engine still returns an output
instead of raising. -/
theorem step_failure_aborts_loop (eps alpha_step : ℚ) (base baseFull : ℕ → ℚ)
    (sched : ℕ → Option (ℕ → ℚ)) (K : ℕ → List (ℚ × ℕ)) (steps i : ℕ)
    (hi : i < steps) (hfail : sched i = none)
    (hok : ∀ j, j < i → (sched j).isSome = true) :
    runLoopCode eps alpha_step base sched steps
      = ((runLoopCode eps alpha_step base sched i).1, i)
    ∧ exceptOk (applyPoisonModel eps alpha_step steps base baseFull sched K)
        = true := by
  constructor
  · have habort := runCodeAux_abort eps alpha_step base sched i steps 0
      (fun _ => 0) hi (by simpa using hfail) (fun j hj => by simpa using hok j hj)
    have hcount := runCodeAux_clean_count eps alpha_step base sched i 0
      (fun _ => 0) (fun j hj => by simpa using hok j hj)
    unfold runLoopCode
    rw [habort]
    exact Prod.ext rfl hcount
  · obtain ⟨n, rfl⟩ := Nat.exists_eq_succ_of_ne_zero
      (Nat.pos_iff_ne_zero.mp (Nat.lt_of_le_of_lt (Nat.zero_le _) hi))
    rfl

/-- Witness for the amended claim C3: the concrete aborted run with failure
at step 0 out of 2 configured steps. -/
theorem step_failure_aborts_loop_w :
    (runLoopCode (32/255) (2/255) (fun _ => 1/2) cexSched 2
        = ((runLoopCode (32/255) (2/255) (fun _ => 1/2) cexSched 0).1, 0))
    ∧ exceptOk (applyPoisonModel (32/255) (2/255) 2 (fun _ => 1/2)
        (fun _ => 1/2) cexSched (fun _ => [])) = true :=
  step_failure_aborts_loop (32/255) (2/255) (fun _ => 1/2) (fun _ => 1/2)
    cexSched (fun _ => []) 2 0 (by norm_num) rfl (fun j hj => absurd hj (by omega))

/-- Claim C6 (code side): with steps = 0 the engine raises instead of
returning the unchanged image.  The loop indeed performs no iteration and
leaves delta at zero, and the finalization it never reaches would reproduce
the base image (shown at the constant base one-half), but building the
metrics record raises NameError first. -/
theorem steps_zero_raises_nameerror :
    (∀ (eps alpha_step : ℚ) (baseWork baseFull : ℕ → ℚ)
        (sched : ℕ → Option (ℕ → ℚ)) (K : ℕ → List (ℚ × ℕ)),
        applyPoisonModel eps alpha_step 0 baseWork baseFull sched K
          = Except.error EngineFailure.nameErrorStepsVar)
  ∧ (∀ (eps alpha_step : ℚ) (baseWork : ℕ → ℚ)
        (sched : ℕ → Option (ℕ → ℚ)) (p : ℕ),
        (runLoopCode eps alpha_step baseWork sched 0).1 p = 0)
  ∧ (∀ (K : ℕ → List (ℚ × ℕ)) (p : ℕ), applyKernel K (fun _ => 0) p = 0)
  ∧ (∀ (K : ℕ → List (ℚ × ℕ)) (p : ℕ),
        clampQ 0 1 ((1/2 : ℚ) + applyKernel K (fun _ => 0) p) = 1/2) := by
  have hker : ∀ (K : ℕ → List (ℚ × ℕ)) (p : ℕ),
      applyKernel K (fun _ => 0) p = 0 := by
    intro K p
    unfold applyKernel
    refine List.sum_eq_zero ?_
    intro x hx
    obtain ⟨t, _, rfl⟩ := List.mem_map.mp hx
    simp
  refine ⟨fun _ _ _ _ _ _ => rfl, fun _ _ _ _ _ => rfl, hker, ?_⟩
  intro K p
  rw [hker K p]
  unfold clampQ
  norm_num

/-- The mid-band indicator of the spread-spectrum watermark (main.py lines
194-195 and 221-222): one on the rectangle of rows h/8 .. h/2-1 and columns
w/8 .. w/2-1 of the luminance DCT, zero elsewhere (integer division). -/
def freqBand (h w : ℕ) (i : Fin h) (j : Fin w) : ℚ :=
  if h / 8 ≤ i.val ∧ i.val < h / 2 ∧ w / 8 ≤ j.val ∧ j.val < w / 2 then 1 else 0

/-- np.mean(np.abs(dct_y)) over an h by w coefficient matrix (main.py
line 196). -/
def meanAbsDCT {h w : ℕ} (D : Fin h → Fin w → ℚ) : ℚ :=
  (∑ i, ∑ j, |D i j|) / (h * w)

/-- The embedding step of apply_ssw_watermark on the luminance DCT
coefficients (main.py line 196): dct_y + alpha * mask * freq_mask *
mean(abs(dct_y)).  The forward and inverse DCT around this step are exact
mutual inverses in real arithmetic, so detection, which re-computes the DCT
of the written luminance plane, sees exactly these coefficients (the final
clip to [0,1] and 8-bit quantization are not modelled). -/
def embedCoeffs {h w : ℕ} (alpha : ℚ) (D mask : Fin h → Fin w → ℚ) :
    Fin h → Fin w → ℚ :=
  fun i j => D i j + alpha * mask i j * freqBand h w i j * meanAbsDCT D

/-- The normalizer of the detection score (main.py line 236):
sum of the absolute values of mask * freq_mask. -/
def bandEnergy {h w : ℕ} (mask : Fin h → Fin w → ℚ) : ℚ :=
  ∑ i, ∑ j, |mask i j * freqBand h w i j|

/-- detect_ssw_watermark on the luminance DCT coefficients (main.py lines
225-240): score = sum((dct_y * freq_mask) * (mask * freq_mask)), returned as
score / energy * 100, with 0 when the energy vanishes. -/
def detectScoreCoeffs {h w : ℕ} (D mask : Fin h → Fin w → ℚ) : ℚ :=
  if bandEnergy mask = 0 then 0
  else ((∑ i, ∑ j, (D i j * freqBand h w i j) * (mask i j * freqBand h w i j))
    / bandEnergy mask) * 100

/-- The band indicator is idempotent under multiplication. -/
theorem freqBand_mul_self (h w : ℕ) (i : Fin h) (j : Fin w) :
    freqBand h w i j * freqBand h w i j = freqBand h w i j := by
  unfold freqBand
  split <;> ring

/-- The luminance DCT of the all-black 8 by 8 image: the zero matrix. -/
def blackDCT8 : Fin 8 → Fin 8 → ℚ := fun _ _ => 0

/-- An admissible key mask: all entries 1, within the [-1,1] range the seeded
uniform generator draws from. -/
def onesMask8 : Fin 8 → Fin 8 → ℚ := fun _ _ => 1

/-- Counterexample for claim C7: the round-trip guarantee is not universal.
For the all-black image the luminance DCT is zero, the embedding strength
alpha * mean(abs(dct_y)) vanishes, apply_ssw_watermark returns the image
unchanged, and the detection score is 0, not above the 2.0 threshold —
whatever key-derived mask in [-1,1] is used (default alpha 0.012). -/
theorem watermark_always_detected_claim_false :
    ¬ (∀ (D mask : Fin 8 → Fin 8 → ℚ),
        (∀ i j, -1 ≤ mask i j ∧ mask i j ≤ 1) →
        2 < detectScoreCoeffs (embedCoeffs (3/250) D mask) mask) := by
  intro hcl
  have hmask : ∀ (i j : Fin 8), -1 ≤ onesMask8 i j ∧ onesMask8 i j ≤ 1 :=
    fun i j => by unfold onesMask8; norm_num
  have h := hcl blackDCT8 onesMask8 hmask
  have hzero : embedCoeffs (3/250) blackDCT8 onesMask8 = blackDCT8 := by
    funext i j
    unfold embedCoeffs meanAbsDCT blackDCT8
    simp
  rw [hzero] at h
  have hsc : detectScoreCoeffs blackDCT8 onesMask8 = 0 := by
    unfold detectScoreCoeffs
    split
    · rfl
    · unfold blackDCT8
      simp
  rw [hsc] at h
  exact absurd h (by norm_num)

/-- Claim C7 (amended): on the DCT coefficients, embedding shifts the
detection score with the same key by exactly
alpha * mean(abs(dct_y)) * (sum of mask^2 over the band) / energy * 100,
so for a non-negative alpha the score never decreases; it strictly exceeds
the unwatermarked score only when the image has non-zero mean absolute DCT
and the mask does not vanish on the band, which the all-black image fails. -/
theorem watermark_detect_shift {h w : ℕ} (alpha : ℚ)
    (D mask : Fin h → Fin w → ℚ) (hE : bandEnergy mask ≠ 0) :
    detectScoreCoeffs (embedCoeffs alpha D mask) mask
      = detectScoreCoeffs D mask
        + alpha * meanAbsDCT D
          * ((∑ i, ∑ j, (mask i j)^2 * freqBand h w i j) / bandEnergy mask)
          * 100
    ∧ (0 ≤ alpha →
        detectScoreCoeffs D mask
          ≤ detectScoreCoeffs (embedCoeffs alpha D mask) mask) := by
  have hnum : (∑ i, ∑ j, (embedCoeffs alpha D mask i j * freqBand h w i j)
        * (mask i j * freqBand h w i j))
      = (∑ i, ∑ j, (D i j * freqBand h w i j) * (mask i j * freqBand h w i j))
        + alpha * meanAbsDCT D * (∑ i, ∑ j, (mask i j)^2 * freqBand h w i j) := by
    have hterm : ∀ (i : Fin h) (j : Fin w),
        (embedCoeffs alpha D mask i j * freqBand h w i j)
          * (mask i j * freqBand h w i j)
        = (D i j * freqBand h w i j) * (mask i j * freqBand h w i j)
          + alpha * meanAbsDCT D * ((mask i j)^2 * freqBand h w i j) := by
      intro i j
      have hf01 : freqBand h w i j = 0 ∨ freqBand h w i j = 1 := by
        unfold freqBand
        split
        · right; rfl
        · left; rfl
      unfold embedCoeffs
      rcases hf01 with hf | hf <;> rw [hf] <;> ring
    calc (∑ i, ∑ j, (embedCoeffs alpha D mask i j * freqBand h w i j)
          * (mask i j * freqBand h w i j))
        = ∑ i, ∑ j, ((D i j * freqBand h w i j) * (mask i j * freqBand h w i j)
            + alpha * meanAbsDCT D * ((mask i j)^2 * freqBand h w i j)) := by
          refine Finset.sum_congr rfl (fun i _ => ?_)
          exact Finset.sum_congr rfl (fun j _ => hterm i j)
      _ = (∑ i, ∑ j, (D i j * freqBand h w i j) * (mask i j * freqBand h w i j))
            + alpha * meanAbsDCT D
              * (∑ i, ∑ j, (mask i j)^2 * freqBand h w i j) := by
          rw [Finset.mul_sum]
          rw [← Finset.sum_add_distrib]
          refine Finset.sum_congr rfl (fun i _ => ?_)
          rw [Finset.mul_sum, ← Finset.sum_add_distrib]
  have hshift : detectScoreCoeffs (embedCoeffs alpha D mask) mask
      = detectScoreCoeffs D mask
        + alpha * meanAbsDCT D
          * ((∑ i, ∑ j, (mask i j)^2 * freqBand h w i j) / bandEnergy mask)
          * 100 := by
    unfold detectScoreCoeffs
    rw [if_neg hE, if_neg hE, hnum, add_div, add_mul]
    ring
  refine ⟨hshift, fun halpha => ?_⟩
  rw [hshift]
  have hmean : 0 ≤ meanAbsDCT D := by
    unfold meanAbsDCT
    refine div_nonneg ?_ (by positivity)
    refine Finset.sum_nonneg (fun i _ => ?_)
    exact Finset.sum_nonneg (fun j _ => abs_nonneg _)
  have hS : 0 ≤ ∑ i, ∑ j, (mask i j)^2 * freqBand h w i j := by
    refine Finset.sum_nonneg (fun i _ => ?_)
    refine Finset.sum_nonneg (fun j _ => ?_)
    refine mul_nonneg (sq_nonneg _) ?_
    unfold freqBand
    split <;> norm_num
  have hEpos : 0 < bandEnergy mask := by
    rcases lt_or_eq_of_le (show (0:ℚ) ≤ bandEnergy mask from by
      refine Finset.sum_nonneg (fun i _ => ?_)
      exact Finset.sum_nonneg (fun j _ => abs_nonneg _)) with hlt | heq
    · exact hlt
    · exact absurd heq.symm hE
  have : 0 ≤ alpha * meanAbsDCT D
      * ((∑ i, ∑ j, (mask i j)^2 * freqBand h w i j) / bandEnergy mask) * 100 := by
    refine mul_nonneg (mul_nonneg (mul_nonneg halpha hmean) ?_) (by norm_num)
    exact div_nonneg hS (le_of_lt hEpos)
  linarith

/-- All-ones 2 by 2 coefficient matrix used by the C7 witness. -/
def onesM2 : Fin 2 → Fin 2 → ℚ := fun _ _ => 1

/-- Witness for the amended claim C7 on concrete 2 by 2 coefficients: the
all-ones matrix and all-ones mask (band = the single cell (0,0), energy 1). -/
theorem watermark_detect_shift_w :
    detectScoreCoeffs (embedCoeffs (3/250) onesM2 onesM2) onesM2
      = detectScoreCoeffs onesM2 onesM2
        + (3/250) * meanAbsDCT onesM2
          * ((∑ i : Fin 2, ∑ j : Fin 2, (onesM2 i j)^2 * freqBand 2 2 i j)
              / bandEnergy onesM2)
          * 100
    ∧ (0 ≤ (3/250 : ℚ) →
        detectScoreCoeffs onesM2 onesM2
          ≤ detectScoreCoeffs (embedCoeffs (3/250) onesM2 onesM2) onesM2) :=
  watermark_detect_shift (3/250) onesM2 onesM2
    (by
      unfold bandEnergy onesM2 freqBand
      norm_num [Fin.sum_univ_two])

/-- A decoded image as the orchestrator handles it: RGB samples, an optional
alpha channel (present exactly when the decoded mode was RGBA), and pixel
dimensions.  The model starts after the successful download, decode and
EXIF transpose of main.py lines 899-908, so img is already the transposed
image; PNG re-encode and decode are lossless and modelled as the identity on
this record. -/
structure PImage where
  rgb : ℕ → ℚ
  alphaCh : Option (ℕ → ℚ)
  width : ℕ
  height : ℕ

/-- The observable outcome of ModelService.process_job (main.py lines
880-1080): final status, the applied_protections list, the image published
to object storage (none when the job failed before upload), and the error
message. -/
structure JobOutcome where
  statusTag : String
  applied : List String
  uploaded : Option PImage
  errorMsg : Option String

/-- The warning process_job stores in error_msg when verification is
requested on a job with an empty applied_methods list (main.py line 964);
the job still completes and its result carries this message. -/
def verificationIgnoredMsg : String :=
  "Verification ignored: No protection methods were applied to this image."

/-- ModelService.process_job after download and decode (main.py lines
910-1061).  The GPU poison stage, the two watermark stages, the verifier and
the upload are abstract stage functions; Except.error models a raised
exception.  Control flow mirrors the source: one try block wraps all stages,
the poison stage re-raises its own failures (lines 935-937), the frequency
watermark call has no handler of its own (line 945), the skipped-verification
branch stores a warning in error_msg while the job continues (lines 960-966),
the verifier failure is caught and recorded without failing the job (lines
975-978, leaving error_msg untouched), and any uncaught exception lands in
the outer handler (lines 1056-1061), overwriting error_msg, with status
failed and the applied_protections collected so far. -/
def processJobModel (cfg : PoisonConfig) (verifyFlag previewFlag : Bool)
    (poisonFn wmFn visFn : PImage → Except String PImage)
    (verifFn : PImage → Except String Unit)
    (uploadFn : PImage → Except String Unit)
    (alphaResize : (ℕ → ℚ) → PImage → (ℕ → ℚ))
    (img : PImage) : JobOutcome :=
  let alpha0 := img.alphaCh
  let cur0 : PImage := { img with alphaCh := none }
  let step1 : Except String (PImage × List String) :=
    if getFlag cfg.apply_poison true || getFlag cfg.apply_concept_poison false then
      match poisonFn cur0 with
      | Except.ok pimg =>
        Except.ok (pimg,
          (if getFlag cfg.apply_poison true then ["poison_ivy"] else [])
            ++ (if getFlag cfg.apply_concept_poison false then ["concept_cloak"] else []))
      | Except.error e => Except.error e
    else Except.ok (cur0, [])
  match step1 with
  | Except.error e =>
    { statusTag := "failed", applied := [], uploaded := none, errorMsg := some e }
  | Except.ok (cur1, ap1) =>
    let step2 : Except String (PImage × List String) :=
      if getFlag cfg.apply_watermark true then
        match wmFn cur1 with
        | Except.ok wimg => Except.ok (wimg, ap1 ++ ["ai_watermark"])
        | Except.error e => Except.error e
      else Except.ok (cur1, ap1)
    match step2 with
    | Except.error e =>
      { statusTag := "failed", applied := ap1, uploaded := none, errorMsg := some e }
    | Except.ok (cur2, ap2) =>
      let step3 : Except String (PImage × List String) :=
        if getFlag cfg.apply_visual_watermark false then
          match visFn cur2 with
          | Except.ok vimg => Except.ok (vimg, ap2 ++ ["visual_watermark"])
          | Except.error e => Except.error e
        else Except.ok (cur2, ap2)
      match step3 with
      | Except.error e =>
        { statusTag := "failed", applied := ap2, uploaded := none, errorMsg := some e }
      | Except.ok (cur3, ap3) =>
        let cur4 : PImage :=
          match alpha0 with
          | none => cur3
          | some a =>
            let a2 := if img.width = cur3.width ∧ img.height = cur3.height
              then a else alphaResize a cur3
            { cur3 with alphaCh := some a2 }
        let shouldVerify :=
          getFlag cfg.apply_verification false || verifyFlag || previewFlag
        let ap4 :=
          if shouldVerify then
            if ap3 = [] then ap3
            else
              match verifFn cur4 with
              | Except.ok _ => ap3 ++ ["verification_audit"]
              | Except.error _ => ap3
          else ap3
        let verifMsg : Option String :=
          if shouldVerify then
            if ap3 = [] then some verificationIgnoredMsg else none
          else none
        match uploadFn cur4 with
        | Except.error e =>
          { statusTag := "failed", applied := ap4, uploaded := none,
            errorMsg := some e }
        | Except.ok _ =>
          { statusTag := "completed", applied := ap4, uploaded := some cur4,
            errorMsg := verifMsg }

/-- The concrete 4000 by 4000 RGB input of the max_res scenario: every side
exceeds the default cap of 3840. -/
def img4000 : PImage :=
  { rgb := fun _ => 1/2, alphaCh := none, width := 4000, height := 4000 }

/-- The default config with every protection stage disabled, max_res kept at
its default 3840. -/
def cfgNullProtection : PoisonConfig :=
  { defaultConfig with
    apply_poison := some false
    apply_concept_poison := some false
    apply_watermark := some false
    apply_visual_watermark := some false }

/-- Identity stage stand-in for stages that are never invoked. -/
def stageId : PImage → Except String PImage := fun im => Except.ok im

/-- Verifier stand-in that always succeeds. -/
def verifOk : PImage → Except String Unit := fun _ => Except.ok ()

/-- Upload stand-in that always succeeds. -/
def uploadOk : PImage → Except String Unit := fun _ => Except.ok ()

/-- Alpha-resize stand-in (never reached when dimensions are unchanged). -/
def alphaKeep : (ℕ → ℚ) → PImage → (ℕ → ℚ) := fun a _ => a

/-- Claim C4 (code side): process_job never reads the max_res key — editing
it never changes the outcome — and on the concrete 4000 by 4000 input the
published image keeps its 4000-pixel sides, exceeding the default cap of
3840 that the claim says is enforced. -/
theorem max_res_never_applied :
    (∀ (cfg : PoisonConfig) (m₁ m₂ : Option ℕ) (vflag pflag : Bool)
        (pf wf vf : PImage → Except String PImage)
        (verf : PImage → Except String Unit)
        (upf : PImage → Except String Unit)
        (ar : (ℕ → ℚ) → PImage → (ℕ → ℚ)) (img : PImage),
        processJobModel { cfg with max_res := m₁ } vflag pflag pf wf vf verf upf ar img
          = processJobModel { cfg with max_res := m₂ } vflag pflag pf wf vf verf upf ar img)
  ∧ (processJobModel cfgNullProtection false false stageId stageId stageId
        verifOk uploadOk alphaKeep img4000).uploaded = some img4000
  ∧ img4000.width = 4000 ∧ img4000.height = 4000
  ∧ ¬ (4000 ≤ 3840) ∧ defaultConfig.max_res = some 3840 := by
  refine ⟨?_, rfl, rfl, rfl, by norm_num, rfl⟩
  intro cfg m₁ m₂ vflag pflag pf wf vf verf upf ar img
  cases cfg
  rfl

/-- Claim C9: with all four protection flags false the job completes with an
empty applied_protections list and publishes exactly the (EXIF-transposed)
input: same RGB samples, same dimensions, and for RGBA inputs the original
alpha channel restored by the split/rejoin, whatever the stage functions
would have done; the upload must succeed.  When verification was requested
it is skipped because no protections were applied, and the completed result
then carries the verification-ignored warning in error_msg (main.py lines
960-966); otherwise error_msg is none. -/
theorem null_protection_identity (cfg : PoisonConfig)
    (hp : cfg.apply_poison = some false)
    (hcp : cfg.apply_concept_poison = some false)
    (hwm : cfg.apply_watermark = some false)
    (hvw : cfg.apply_visual_watermark = some false)
    (vflag pflag : Bool) (pf wf vf : PImage → Except String PImage)
    (verf : PImage → Except String Unit) (upf : PImage → Except String Unit)
    (ar : (ℕ → ℚ) → PImage → (ℕ → ℚ)) (img : PImage)
    (hup : upf img = Except.ok ()) :
    processJobModel cfg vflag pflag pf wf vf verf upf ar img
      = { statusTag := "completed", applied := [], uploaded := some img,
          errorMsg :=
            if getFlag cfg.apply_verification false || vflag || pflag then
              some verificationIgnoredMsg
            else none } := by
  obtain ⟨rgb, alpha, wd, ht⟩ := img
  cases alpha with
  | none => simp [processJobModel, hp, hcp, hwm, hvw, getFlag, hup]
  | some a => simp [processJobModel, hp, hcp, hwm, hvw, getFlag, hup]

/-- A concrete RGBA 400 by 600 input for the null-protection witness. -/
def imgRGBA : PImage :=
  { rgb := fun _ => 1/3, alphaCh := some (fun _ => 1/4),
    width := 400, height := 600 }

/-- Watermark stage stand-in that raises. -/
def wmBoom : PImage → Except String PImage :=
  fun _ => Except.error "watermark stage raised"

/-- Witness for claim C9: the concrete RGBA input with every protection
disabled comes back untouched, alpha included, even though the supplied
watermark stage would raise if it were called; without a verification
request error_msg is none, and with verify_protection set the job still
completes identically but records the verification-ignored warning. -/
theorem null_protection_identity_w :
    (processJobModel cfgNullProtection false false stageId wmBoom stageId
        verifOk uploadOk alphaKeep imgRGBA
      = { statusTag := "completed", applied := [], uploaded := some imgRGBA,
          errorMsg := none })
  ∧ (processJobModel cfgNullProtection true false stageId wmBoom stageId
        verifOk uploadOk alphaKeep imgRGBA
      = { statusTag := "completed", applied := [], uploaded := some imgRGBA,
          errorMsg := some verificationIgnoredMsg }) :=
  ⟨null_protection_identity cfgNullProtection rfl rfl rfl rfl false false
    stageId wmBoom stageId verifOk uploadOk alphaKeep imgRGBA rfl,
   null_protection_identity cfgNullProtection rfl rfl rfl rfl true false
    stageId wmBoom stageId verifOk uploadOk alphaKeep imgRGBA rfl⟩

/-- A concrete 512 by 512 RGB input. -/
def img512 : PImage :=
  { rgb := fun _ => 1/2, alphaCh := none, width := 512, height := 512 }

/-- The default config with the poison stage switched off: the frequency
watermark stays enabled (its default is true). -/
def cfgWatermarkOnly : PoisonConfig :=
  { defaultConfig with apply_poison := some false }

/-- Counterexample for claim C8: when the watermark stage raises during a job
with apply_watermark = true, process_job has no handler around
apply_ssw_watermark, so the job finishes failed (not completed) and nothing
is published, while the claim requires status completed with an output
published without the watermark. -/
theorem watermark_failure_recovery_claim_false :
    (processJobModel cfgWatermarkOnly false false stageId wmBoom stageId
        verifOk uploadOk alphaKeep img512).statusTag = "failed"
  ∧ (processJobModel cfgWatermarkOnly false false stageId wmBoom stageId
        verifOk uploadOk alphaKeep img512).uploaded = none
  ∧ (processJobModel cfgWatermarkOnly false false stageId wmBoom stageId
        verifOk uploadOk alphaKeep img512).errorMsg
      = some "watermark stage raised"
  ∧ ("failed" : String) ≠ "completed" := by
  refine ⟨rfl, rfl, rfl, by decide⟩

/-- Claim C8 (amended): an exception in the frequency-watermark stage
propagates to the job-level handler: the job transitions to failed with the
error recorded, nothing is published, and applied_protections keeps exactly
the stages completed before the watermark (here the poison stage), rather
than completing without the watermark. -/
theorem watermark_failure_fails_job (cfg : PoisonConfig)
    (hp : cfg.apply_poison = some true)
    (hcp : cfg.apply_concept_poison = some false)
    (hwm : cfg.apply_watermark = some true)
    (vflag pflag : Bool) (pf wf vf : PImage → Except String PImage)
    (verf : PImage → Except String Unit) (upf : PImage → Except String Unit)
    (ar : (ℕ → ℚ) → PImage → (ℕ → ℚ)) (img pimg : PImage) (e : String)
    (hpf : pf { img with alphaCh := none } = Except.ok pimg)
    (hwf : wf pimg = Except.error e) :
    processJobModel cfg vflag pflag pf wf vf verf upf ar img
      = { statusTag := "failed", applied := ["poison_ivy"], uploaded := none,
          errorMsg := some e } := by
  simp [processJobModel, hp, hcp, hwm, getFlag, hpf, hwf]

/-- Witness for the amended claim C8: the default config (poison on,
watermark on) with an identity poison stage and a raising watermark stage on
the concrete 512 by 512 input. -/
theorem watermark_failure_fails_job_w :
    processJobModel defaultConfig false false stageId wmBoom stageId
        verifOk uploadOk alphaKeep img512
      = { statusTag := "failed", applied := ["poison_ivy"], uploaded := none,
          errorMsg := some "watermark stage raised" } :=
  watermark_failure_fails_job defaultConfig rfl rfl rfl false false
    stageId wmBoom stageId verifOk uploadOk alphaKeep img512 img512
    "watermark stage raised" rfl rfl
